import Mathlib

/-!
Verification of the core trading engine of the Btcai repository
(`AutoTradingSystem` in the single main source file).

The JavaScript class is shallowly embedded: JS numbers are modelled as
exact rationals `ℚ` (the embedded functions perform only field
arithmetic and comparisons, except annualized volatility, whose square
root is modelled over `ℝ`); the mutable `this.state` object becomes an
explicit `State` record threaded through the functions; `Date` values
become rational millisecond timestamps passed explicitly as `now`;
display-only formatting (`toFixed`) and UI/persistence calls are not
part of the model.  Enumerated string fields (`'BUY'`, `'win'`,
`'hit_tp1'`, trend names, rationale strings) become inductive types.
-/

namespace Btcai

/-- Candle record as produced by `getCandleData` (the JS field `open`
is renamed `openPrice`: `open` is a Lean keyword). -/
structure Candle where
  timestamp : ℚ
  openPrice : ℚ
  high : ℚ
  low : ℚ
  close : ℚ
  volume : ℚ
deriving DecidableEq

/-- Trend classification returned by `calculateTrend`. -/
inductive Trend where
  | bullish
  | bearish
  | neutral
deriving DecidableEq

/-- Signal action produced by `analyzeMarket`. -/
inductive Action where
  | BUY
  | SELL
  | HOLD
deriving DecidableEq

/-- Side of an open trade (`trade.action` is always BUY or SELL, since
`createTradeRecord` is only reached for non-HOLD signals). -/
inductive Side where
  | BUY
  | SELL
deriving DecidableEq

/-- The `status` string of a trade record. -/
inductive TradeStatus where
  | active
  | hit_tp1
  | hit_tp2
  | hit_sl
deriving DecidableEq

/-- The `result` string of a resolved trade record. -/
inductive TradeOutcome where
  | win
  | loss
deriving DecidableEq

/-- Which rationale message `analyzeMarket` builds (the Chinese reason
strings are abstracted to the branch that produced them). -/
inductive ReasonKind where
  | oversoldBuy
  | oversoldWait
  | overboughtSell
  | overboughtWait
  | rsiNeutral
  | nearSupport
  | nearResistance
  | noSignal
deriving DecidableEq

/-- Indicator snapshot `this.state.indicators`.  Volatility is real
valued because `calculateVolatility` takes a square root. -/
structure Indicators where
  rsi : ℚ
  trend : Trend
  volatility : ℝ
  support : ℚ
  resistance : ℚ
  pricePosition : ℚ

/-- Aggregate statistics `this.state.stats`.  Counters are integers
(JS numbers used as counters), money quantities are rationals. -/
structure Stats where
  totalTrades : ℤ
  winningTrades : ℤ
  totalPnL : ℚ
  currentStreak : ℤ
  bestStreak : ℤ
  maxWin : ℚ
  maxLoss : ℚ
  avgWin : ℚ
  avgLoss : ℚ
deriving DecidableEq

/-- Trade record created by `createTradeRecord`, restricted to the
fields the lifecycle logic reads or writes (`id`, `confidence`,
`reason`, `rsi`, `symbol`, `timestamp`, `positionPercent` and
`riskReward` are carried for display only and never branch the core).
`price` is the entry price; `completedAt` is a millisecond timestamp
(the source stores an ISO string of the same instant). -/
structure Trade where
  action : Side
  price : ℚ
  tp1 : ℚ
  tp2 : ℚ
  sl : ℚ
  positionSize : ℚ
  status : TradeStatus
  result : Option TradeOutcome
  pnl : Option ℚ
  exitPrice : Option ℚ
  completedAt : Option ℚ
deriving DecidableEq

/-- Configuration `this.config`, restricted to the parameters the core
logic reads. -/
structure Config where
  accountBalance : ℚ
  riskPerTrade : ℚ
  tp1Percent : ℚ
  tp2Percent : ℚ
  slPercent : ℚ
  maxPositionPercent : ℚ
  rsiOversold : ℚ
  rsiOverbought : ℚ
  rsiNeutralMin : ℚ
  rsiNeutralMax : ℚ
  highVolatility : ℚ
  trendThreshold : ℚ
  cooldownSeconds : ℚ

/-- The mutable `this.state` of the class, restricted to the fields the
core logic reads or writes, together with `this.candles`. -/
structure State where
  currentPrice : ℚ
  indicators : Indicators
  activeTrade : Option Trade
  stats : Stats
  cooldownEnd : Option ℚ
  candles : List Candle

/-- The default configuration values from the class constructor. -/
def defaultConfig : Config where
  accountBalance := 100
  riskPerTrade := 0.02
  tp1Percent := 0.015
  tp2Percent := 0.03
  slPercent := 0.012
  maxPositionPercent := 0.5
  rsiOversold := 30
  rsiOverbought := 70
  rsiNeutralMin := 40
  rsiNeutralMax := 60
  highVolatility := 5
  trendThreshold := 0.5
  cooldownSeconds := 180

/-- The initial indicator snapshot from the class constructor. -/
noncomputable def initialIndicators : Indicators where
  rsi := 50
  trend := .neutral
  volatility := 0
  support := 0
  resistance := 0
  pricePosition := 50

/-- The zeroed statistics from the class constructor. -/
def initialStats : Stats where
  totalTrades := 0
  winningTrades := 0
  totalPnL := 0
  currentStreak := 0
  bestStreak := 0
  maxWin := 0
  maxLoss := 0
  avgWin := 0
  avgLoss := 0

/-- `isInCooldown()`: false when `cooldownEnd` is unset, else compares
the current time against it. -/
def isInCooldown (s : State) (now : ℚ) : Bool :=
  match s.cooldownEnd with
  | none => false
  | some endTime => decide (now < endTime)

/-- `updateStats(result, pnl)`: `totalTrades` is incremented first; a
win increments `winningTrades` and `currentStreak`, raising
`bestStreak`, `maxWin` and the running `avgWin`; a loss resets
`currentStreak` and updates `maxLoss` and `avgLoss`; `totalPnL`
accumulates the signed pnl in both cases. -/
def updateStats (stats : Stats) (result : TradeOutcome) (pnl : ℚ) : Stats :=
  let stats1 := { stats with totalTrades := stats.totalTrades + 1 }
  match result with
  | .win =>
    let winning : ℤ := stats1.winningTrades + 1
    let streak : ℤ := stats1.currentStreak + 1
    let best : ℤ := if streak > stats1.bestStreak then streak else stats1.bestStreak
    let maxWin := if pnl > stats1.maxWin then pnl else stats1.maxWin
    let winCount : ℤ := winning - 1
    let avgWin :=
      if winCount > 0 then (stats1.avgWin * (winCount : ℚ) + pnl) / (winning : ℚ)
      else pnl
    { stats1 with
        winningTrades := winning
        currentStreak := streak
        bestStreak := best
        maxWin := maxWin
        avgWin := avgWin
        totalPnL := stats1.totalPnL + pnl }
  | .loss =>
    let maxLoss := if pnl < stats1.maxLoss then pnl else stats1.maxLoss
    let lossCount : ℤ := (stats1.totalTrades - stats1.winningTrades) - 1
    let avgLoss :=
      if lossCount > 0 then
        (stats1.avgLoss * (lossCount : ℚ) + pnl)
          / ((stats1.totalTrades - stats1.winningTrades : ℤ) : ℚ)
      else pnl
    { stats1 with
        currentStreak := 0
        maxLoss := maxLoss
        avgLoss := avgLoss
        totalPnL := stats1.totalPnL + pnl }

/-- `completeTrade(result, tpLevel, currentPrice)`: computes pnl from
the take-profit level price (on a win) or the stop-loss price (on a
loss) — not from `currentPrice` — records
status/result/pnl/exitPrice/completedAt on the trade, updates the
statistics, clears the active-trade slot and starts the cooldown
(`startCooldownPeriod` sets `cooldownEnd := now + cooldownSeconds*1000`).
Returns the new state together with the resolved trade record (in the
source the mutated record stays referenced from the signal history).
The `none` branch models the source reading `this.state.activeTrade`:
it is unreachable, as the only caller has already checked that an
active trade exists. -/
def completeTrade (cfg : Config) (s : State) (result : TradeOutcome)
    (tpLevel : ℕ) (currentPrice now : ℚ) : State × Option Trade :=
  match s.activeTrade with
  | none => (s, none)
  | some trade =>
    let positionSize := trade.positionSize
    let entry := trade.price
    let pnl :=
      match result with
      | .win =>
        let tpPrice := if tpLevel = 1 then trade.tp1 else trade.tp2
        match trade.action with
        | .BUY => (tpPrice - entry) * (positionSize / entry)
        | .SELL => (entry - tpPrice) * (positionSize / entry)
      | .loss =>
        let slPrice := trade.sl
        match trade.action with
        | .BUY => (slPrice - entry) * (positionSize / entry)
        | .SELL => (entry - slPrice) * (positionSize / entry)
    let resolved : Trade :=
      { trade with
          status :=
            match result with
            | .win => if tpLevel = 1 then .hit_tp1 else .hit_tp2
            | .loss => .hit_sl
          result := some result
          pnl := some pnl
          exitPrice := some currentPrice
          completedAt := some now }
    let newStats := updateStats s.stats result pnl
    ({ s with
        stats := newStats
        activeTrade := none
        cooldownEnd := some (now + cfg.cooldownSeconds * 1000) },
     some resolved)

/-- `checkTradeConditions()`: returns unchanged when there is no active
trade or the current price is `0` (the JS guard
`!this.state.activeTrade || !this.state.currentPrice`); otherwise
compares the price against tp2, then tp1, then sl (mirrored for SELL)
and hands a triggered trade to `completeTrade`.  The second component
is the resolved trade record, `none` when nothing triggered. -/
def checkTradeConditions (cfg : Config) (s : State) (now : ℚ) :
    State × Option Trade :=
  match s.activeTrade with
  | none => (s, none)
  | some trade =>
    if s.currentPrice = 0 then (s, none)
    else
      let current := s.currentPrice
      let tp1 := trade.tp1
      let tp2 := trade.tp2
      let sl := trade.sl
      match trade.action with
      | .BUY =>
        if current ≥ tp2 then completeTrade cfg s .win 2 current now
        else if current ≥ tp1 then completeTrade cfg s .win 1 current now
        else if current ≤ sl then completeTrade cfg s .loss 0 current now
        else (s, none)
      | .SELL =>
        if current ≤ tp2 then completeTrade cfg s .win 2 current now
        else if current ≤ tp1 then completeTrade cfg s .win 1 current now
        else if current ≥ sl then completeTrade cfg s .loss 0 current now
        else (s, none)

/-- Error channel for the embedded entry points.  The lifecycle code of
the source contains no `throw` at all (only the network layer throws),
so no embedded lifecycle path ever produces an error; the type makes
the absence of an `InvalidStateError` statable. -/
inductive JsError where
  | invalidStateError
deriving DecidableEq

/-- Outcome of the guard clauses at the top of `generateSignal()`. -/
inductive SignalGateOutcome where
  | skippedCooldown
  | skippedActiveTrade
  | proceed
deriving DecidableEq

/-- The guard phase of `generateSignal()` (its first two `if`s, which
run before the `try` block): during cooldown it logs and returns;
with an active trade it logs and returns; otherwise signal generation
proceeds.  No branch throws. -/
def generateSignalGate (s : State) (now : ℚ) : Except JsError SignalGateOutcome :=
  if isInCooldown s now then .ok .skippedCooldown
  else
    match s.activeTrade with
    | some _ => .ok .skippedActiveTrade
    | none => .ok .proceed

/-- Successive close-to-close changes `closes[i] - closes[i-1]`, the
`change` values both RSI loops iterate over. -/
def deltas (closes : List ℚ) : List ℚ :=
  List.zipWith (fun a b => b - a) closes closes.tail

/-- One pass of the initial RSI loop (`i = 1 .. 13`): a positive change
accumulates into `gains`, otherwise `losses += |change|`. -/
def rsiInitStep (p : ℚ × ℚ) (change : ℚ) : ℚ × ℚ :=
  if change > 0 then (p.1 + change, p.2) else (p.1, p.2 + |change|)

/-- One pass of the Wilder smoothing loop (`i = 14 ..`):
`avg = (avg*13 + current)/14` for the gain and the loss average. -/
def rsiWilderStep (p : ℚ × ℚ) (change : ℚ) : ℚ × ℚ :=
  ((p.1 * 13 + (if change > 0 then change else 0)) / 14,
   (p.2 * 13 + (if change < 0 then |change| else 0)) / 14)

/-- The final `(avgGain, avgLoss)` pair of `calculateRSI`: the first 13
changes are summed and divided by 13, the remaining changes are folded
through Wilder smoothing. -/
def rsiAverages (closes : List ℚ) : ℚ × ℚ :=
  let ds := deltas closes
  let init := (ds.take 13).foldl rsiInitStep (0, 0)
  (ds.drop 13).foldl rsiWilderStep (init.1 / 13, init.2 / 13)

/-- `calculateRSI(closes)`: 50 for fewer than 14 closes; 100 when the
smoothed average loss is exactly zero; otherwise
`100 - 100/(1 + avgGain/avgLoss)`. -/
def calculateRSI (closes : List ℚ) : ℚ :=
  if closes.length < 14 then 50
  else
    let avgs := rsiAverages closes
    if avgs.2 = 0 then 100
    else 100 - 100 / (1 + avgs.1 / avgs.2)

/-- Result record of `calculateSupportResistance`. -/
structure SRResult where
  support : ℚ
  resistance : ℚ
  pricePosition : ℚ
deriving DecidableEq

/-- `calculateSupportResistance(highs, lows, currentPrice)`:
resistance is the maximum of the last 20 highs, support the minimum of
the last 20 lows (`slice(-20)` keeps a shorter list whole); the price
position is interpolated only when `resistance > support` (else it
stays 50) and is clamped to `[0, 100]`.  Returns `none` when either
list is empty, where the source's `Math.max()`/`Math.min()` of no
arguments would produce infinities. -/
def calculateSupportResistance (highs lows : List ℚ) (currentPrice : ℚ) :
    Option SRResult :=
  let recentHighs := highs.drop (highs.length - 20)
  let recentLows := lows.drop (lows.length - 20)
  match recentHighs.max?, recentLows.min? with
  | some resistance, some support =>
    let pricePosition : ℚ :=
      if resistance > support then
        (currentPrice - support) / (resistance - support) * 100
      else 50
    some { support := support
           resistance := resistance
           pricePosition := max 0 (min 100 pricePosition) }
  | _, _ => none

/-- `calculateTrend(closes)`: neutral for fewer than 10 closes;
otherwise compares the mean of the last 5 closes with the mean of the
last 10 against the configured threshold. -/
def calculateTrend (cfg : Config) (closes : List ℚ) : Trend :=
  if closes.length < 10 then .neutral
  else
    let shortTerm := closes.drop (closes.length - 5)
    let longTerm := closes.drop (closes.length - 10)
    let shortAvg := shortTerm.sum / (shortTerm.length : ℚ)
    let longAvg := longTerm.sum / (longTerm.length : ℚ)
    let change := (shortAvg - longAvg) / longAvg * 100
    if change > cfg.trendThreshold then .bullish
    else if change < -cfg.trendThreshold then .bearish
    else .neutral

/-- `calculateVolatility(closes)`: 0 for fewer than 10 closes; else the
standard deviation of consecutive percent returns, annualized by
`sqrt 252` and scaled to percent.  Real valued because of the square
root. -/
noncomputable def calculateVolatility (closes : List ℚ) : ℝ :=
  if closes.length < 10 then 0
  else
    let returns := List.zipWith (fun a b => (b - a) / a) closes closes.tail
    let mean := returns.sum / (returns.length : ℚ)
    let variance :=
      (returns.map (fun r => (r - mean) ^ 2)).sum / (returns.length : ℚ)
    Real.sqrt (variance : ℝ) * Real.sqrt 252 * 100

/-- Whether `calculateIndicators()` recomputed the snapshot or warned
and returned early. -/
inductive IndicatorsOutcome where
  | insufficientData
  | computed
deriving DecidableEq

/-- `calculateIndicators()`: with fewer than 20 candles it only logs a
warning and returns, leaving `this.state.indicators` untouched;
otherwise it recomputes the whole snapshot from the candle closes,
highs and lows.  The middle `none` branch is unreachable: with at least
20 candles the high/low lists are nonempty. -/
noncomputable def calculateIndicators (cfg : Config) (s : State) :
    State × IndicatorsOutcome :=
  if s.candles.length < 20 then (s, .insufficientData)
  else
    let closes := s.candles.map (·.close)
    let highs := s.candles.map (·.high)
    let lows := s.candles.map (·.low)
    match calculateSupportResistance highs lows s.currentPrice with
    | none => (s, .insufficientData)
    | some sr =>
      ({ s with
          indicators :=
            { rsi := calculateRSI closes
              trend := calculateTrend cfg closes
              volatility := calculateVolatility closes
              support := sr.support
              resistance := sr.resistance
              pricePosition := sr.pricePosition } },
       .computed)

/-- Signal produced by `analyzeMarket` (numeric display fields of the
source's return object are omitted; the rationale string is abstracted
to its branch, plus the two appended notes). -/
structure MarketSignal where
  action : Action
  confidence : ℚ
  reason : ReasonKind
  proximityNote : Bool
  volatilityCaveat : Bool

/-- `analyzeMarket()`: the four-way RSI decision (oversold, overbought,
neutral band, price-position fallback), then the high-volatility
confidence penalty `×0.8`, then the clamp of the confidence to
`[0.3, 0.95]`. -/
noncomputable def analyzeMarket (cfg : Config) (ind : Indicators) :
    MarketSignal :=
  let rsi := ind.rsi
  let base : Action × ℚ × ReasonKind × Bool :=
    if rsi < cfg.rsiOversold then
      if ind.trend = .bullish ∨ ind.trend = .neutral then
        let c := 0.7 + (cfg.rsiOversold - rsi) / 50
        if ind.pricePosition < 40 then (.BUY, c + 0.05, .oversoldBuy, true)
        else (.BUY, c, .oversoldBuy, false)
      else (.HOLD, 0.5, .oversoldWait, false)
    else if rsi > cfg.rsiOverbought then
      if ind.trend = .bearish ∨ ind.trend = .neutral then
        let c := 0.7 + (rsi - cfg.rsiOverbought) / 50
        if ind.pricePosition > 60 then (.SELL, c + 0.05, .overboughtSell, true)
        else (.SELL, c, .overboughtSell, false)
      else (.HOLD, 0.5, .overboughtWait, false)
    else if cfg.rsiNeutralMin < rsi ∧ rsi < cfg.rsiNeutralMax then
      (.HOLD, 0.6, .rsiNeutral, false)
    else if ind.pricePosition < 30 ∧ ind.trend ≠ .bearish then
      (.BUY, 0.65, .nearSupport, false)
    else if ind.pricePosition > 70 ∧ ind.trend ≠ .bullish then
      (.SELL, 0.65, .nearResistance, false)
    else (.HOLD, 0.5, .noSignal, false)
  let highVol : Prop := ind.volatility > (cfg.highVolatility : ℝ)
  let confidence := if highVol then base.2.1 * 0.8 else base.2.1
  { action := base.1
    confidence := max 0.3 (min 0.95 confidence)
    reason := base.2.2.1
    proximityNote := base.2.2.2
    volatilityCaveat := if highVol then true else false }

/-- Result record of `calculateTradeParams` (the source formats
`riskReward`, `positionSize` and `positionPercent` with `toFixed`;
the exact values are modelled). -/
structure TradeParams where
  tp1 : ℚ
  tp2 : ℚ
  sl : ℚ
  riskReward : ℚ
  positionSize : ℚ
  positionPercent : ℚ
deriving DecidableEq

/-- `calculateTradeParams(action, price, confidence)`: take-profit and
stop-loss prices from the configured percentages (signs mirrored for
SELL), risk-reward ratio `|tp1-price| / |price-sl|`, and position size
`min(riskAmount/(risk/price), balance*maxPositionPercent)` with
`riskAmount = balance*riskPerTrade`.  The `confidence` argument of the
source is unused by the computation.  `action` ranges over trade sides:
the source leaves tp/sl `undefined` for any other string, and is only
called with BUY or SELL. -/
def calculateTradeParams (cfg : Config) (action : Side) (price : ℚ) :
    TradeParams :=
  let tpsl : ℚ × ℚ × ℚ :=
    match action with
    | .BUY =>
      (price * (1 + cfg.tp1Percent), price * (1 + cfg.tp2Percent),
       price * (1 - cfg.slPercent))
    | .SELL =>
      (price * (1 - cfg.tp1Percent), price * (1 - cfg.tp2Percent),
       price * (1 + cfg.slPercent))
  let tp1 := tpsl.1
  let tp2 := tpsl.2.1
  let sl := tpsl.2.2
  let risk := |price - sl|
  let reward := |tp1 - price|
  let riskReward := reward / risk
  let riskAmount := cfg.accountBalance * cfg.riskPerTrade
  let positionSize :=
    min (riskAmount / (risk / price)) (cfg.accountBalance * cfg.maxPositionPercent)
  let positionPercent := positionSize / cfg.accountBalance * 100
  { tp1 := tp1
    tp2 := tp2
    sl := sl
    riskReward := riskReward
    positionSize := positionSize
    positionPercent := positionPercent }

/-- The tie-break scenario trade of the spec: BUY at entry 100 with
tp1 = 101.5, tp2 = 103, sl = 98.8 (position size 50, half the default
balance). -/
def tieBreakTrade : Trade where
  action := .BUY
  price := 100
  tp1 := 101.5
  tp2 := 103
  sl := 98.8
  positionSize := 50
  status := .active
  result := none
  pnl := none
  exitPrice := none
  completedAt := none

/-- State holding the tie-break trade while the live price 103.5 has
cleared both take-profit levels. -/
noncomputable def tieBreakState : State where
  currentPrice := 103.5
  indicators := initialIndicators
  activeTrade := some tieBreakTrade
  stats := initialStats
  cooldownEnd := none
  candles := []

/-- The record `completeTrade` produces for the tie-break trade when
tp2 triggers at price 103.5 at time 0: pnl comes from the tp2 level
price 103, the exit price records the live price 103.5. -/
def tieBreakResolved : Trade :=
  { tieBreakTrade with
      status := .hit_tp2
      result := some .win
      pnl := some (3 / 2)
      exitPrice := some (207 / 2)
      completedAt := some 0 }

/-- A state with no active trade and no cooldown (live price 100). -/
noncomputable def noTradeState : State where
  currentPrice := 100
  indicators := initialIndicators
  activeTrade := none
  stats := initialStats
  cooldownEnd := none
  candles := []

/-- Same trade as the tie-break scenario, but the current price is 0,
as before the first successful ticker fetch. -/
noncomputable def zeroPriceState : State where
  currentPrice := 0
  indicators := initialIndicators
  activeTrade := some tieBreakTrade
  stats := initialStats
  cooldownEnd := none
  candles := []

/-- An oversold, high-volatility indicator snapshot: RSI 20 is below
the default oversold bound 30, volatility 10 exceeds the default
high-volatility bound 5, the price position 50 earns no proximity
bonus. -/
noncomputable def highVolOversoldInd : Indicators where
  rsi := 20
  trend := .neutral
  volatility := 10
  support := 0
  resistance := 0
  pricePosition := 50

/-- Fourteen strictly rising closes. -/
def risingCloses : List ℚ :=
  [1, 2, 3, 4, 5, 6, 7, 8, 9, 10, 11, 12, 13, 14]

/-- Claim C10: when the current price is 0 (unset before the first
ticker fetch), `checkTradeConditions` leaves the whole state unchanged
and resolves nothing, even when a trade is active — so an active BUY
trade is never stopped out by a missing price, although 0 ≤ sl would
satisfy the loss comparison. -/
theorem checkTradeConditions_zero_price_frame (cfg : Config) (s : State)
    (now : ℚ) (h : s.currentPrice = 0) :
    checkTradeConditions cfg s now = (s, none) := by
  unfold checkTradeConditions
  cases hact : s.activeTrade with
  | none => rfl
  | some t => simp [h]

/-- Witness for C10: the zero-price state holds an active BUY trade
whose stop loss 98.8 satisfies `0 ≤ sl`, yet evaluation changes
nothing. -/
theorem checkTradeConditions_zero_price_frame_witness :
    zeroPriceState.currentPrice = 0 ∧
    zeroPriceState.activeTrade = some tieBreakTrade ∧
    (0 : ℚ) ≤ tieBreakTrade.sl ∧
    checkTradeConditions defaultConfig zeroPriceState 0 =
      (zeroPriceState, none) :=
  ⟨rfl, rfl, by norm_num [tieBreakTrade],
   checkTradeConditions_zero_price_frame defaultConfig zeroPriceState 0 rfl⟩

/-- Counterexample to claim C2: with an active trade, the signal
generator returns a silent skip (`Except.ok`, never
`Except.error .invalidStateError`), and with no active trade the
trade-condition check returns the state unchanged; neither operation
produces an InvalidStateError. -/
theorem lifecycle_invalid_state_counterexample :
    generateSignalGate tieBreakState 0 = .ok .skippedActiveTrade ∧
    checkTradeConditions defaultConfig noTradeState 0 = (noTradeState, none) :=
  ⟨rfl, rfl⟩

/-- Claim C2 as amended: opening while a trade is active is silently
skipped (an `ok` outcome, no error, outside any cooldown), and
resolving with no active trade is a silent no-op that leaves the state
unchanged (again no error). -/
theorem lifecycle_guards_are_silent (cfg : Config) (s : State) (now : ℚ) :
    (isInCooldown s now = false → s.activeTrade.isSome = true →
      generateSignalGate s now = .ok .skippedActiveTrade) ∧
    (s.activeTrade = none → checkTradeConditions cfg s now = (s, none)) := by
  constructor
  · intro hc ha
    unfold generateSignalGate
    rw [hc]
    cases hact : s.activeTrade with
    | none => rw [hact] at ha; simp at ha
    | some t => simp
  · intro h
    unfold checkTradeConditions
    rw [h]

/-- Witness for the amended C2 at concrete states. -/
theorem lifecycle_guards_are_silent_witness :
    generateSignalGate tieBreakState 0 = .ok .skippedActiveTrade ∧
    checkTradeConditions defaultConfig noTradeState 0 = (noTradeState, none) :=
  ⟨(lifecycle_guards_are_silent defaultConfig tieBreakState 0).1 rfl rfl,
   (lifecycle_guards_are_silent defaultConfig noTradeState 0).2 rfl⟩

/-- Claim C8: with fewer than 20 candles, `calculateIndicators` only
signals insufficient data and returns normally (the embedding is a
total function: the source path raises nothing), leaving the indicator
snapshot — neutral from the constructor — untouched. -/
theorem calculateIndicators_insufficient_data (cfg : Config) (s : State)
    (h : s.candles.length < 20) :
    calculateIndicators cfg s = (s, .insufficientData) := by
  unfold calculateIndicators
  rw [if_pos h]

/-- Witness for C8: a fresh state with no candles keeps its neutral
snapshot and reports insufficient data. -/
theorem calculateIndicators_insufficient_data_witness :
    noTradeState.candles.length < 20 ∧
    calculateIndicators defaultConfig noTradeState =
      (noTradeState, .insufficientData) ∧
    noTradeState.indicators = initialIndicators :=
  ⟨by norm_num [noTradeState],
   calculateIndicators_insufficient_data defaultConfig noTradeState
     (by norm_num [noTradeState]),
   rfl⟩

/-- Claim C9: from zeroed statistics, wins of pnl 1, 2, 3 and then a
loss of pnl −1 leave currentStreak 0, bestStreak 3 and totalPnL 5; in
general every resolution increments totalTrades and accumulates the
signed pnl, a win increments winningTrades and currentStreak with
bestStreak the running maximum, and a loss resets currentStreak. -/
theorem updateStats_spec :
    ((updateStats (updateStats (updateStats (updateStats initialStats
        .win 1) .win 2) .win 3) .loss (-1)).currentStreak = 0 ∧
     (updateStats (updateStats (updateStats (updateStats initialStats
        .win 1) .win 2) .win 3) .loss (-1)).bestStreak = 3 ∧
     (updateStats (updateStats (updateStats (updateStats initialStats
        .win 1) .win 2) .win 3) .loss (-1)).totalPnL = 5) ∧
    (∀ (st : Stats) (r : TradeOutcome) (p : ℚ),
      (updateStats st r p).totalTrades = st.totalTrades + 1 ∧
      (updateStats st r p).totalPnL = st.totalPnL + p) ∧
    (∀ (st : Stats) (p : ℚ),
      (updateStats st .win p).winningTrades = st.winningTrades + 1 ∧
      (updateStats st .win p).currentStreak = st.currentStreak + 1 ∧
      (updateStats st .win p).bestStreak =
        max st.bestStreak (st.currentStreak + 1)) ∧
    (∀ (st : Stats) (p : ℚ), (updateStats st .loss p).currentStreak = 0) := by
  refine ⟨⟨?_, ?_, ?_⟩, ?_, ?_, ?_⟩
  · norm_num [updateStats, initialStats]
  · norm_num [updateStats, initialStats]
  · norm_num [updateStats, initialStats]
  · intro st r p
    cases r <;> exact ⟨rfl, rfl⟩
  · intro st p
    refine ⟨rfl, rfl, ?_⟩
    show (if st.currentStreak + 1 > st.bestStreak then st.currentStreak + 1
          else st.bestStreak) = max st.bestStreak (st.currentStreak + 1)
    split_ifs with h <;> omega
  · intro st p
    rfl

/-- Claim C5: take-profit and stop-loss formulas for BUY and SELL, the
risk-reward ratio `|tp1 − E| / |E − sl|` (strictly positive whenever
tp1 ≠ E and sl ≠ E), and the capped position size. -/
theorem calculateTradeParams_spec (cfg : Config) (E : ℚ) :
    ((calculateTradeParams cfg .BUY E).tp1 = E * (1 + cfg.tp1Percent) ∧
     (calculateTradeParams cfg .BUY E).tp2 = E * (1 + cfg.tp2Percent) ∧
     (calculateTradeParams cfg .BUY E).sl = E * (1 - cfg.slPercent)) ∧
    ((calculateTradeParams cfg .SELL E).tp1 = E * (1 - cfg.tp1Percent) ∧
     (calculateTradeParams cfg .SELL E).tp2 = E * (1 - cfg.tp2Percent) ∧
     (calculateTradeParams cfg .SELL E).sl = E * (1 + cfg.slPercent)) ∧
    (∀ a : Side,
      (calculateTradeParams cfg a E).riskReward =
        |(calculateTradeParams cfg a E).tp1 - E| /
          |E - (calculateTradeParams cfg a E).sl| ∧
      ((calculateTradeParams cfg a E).tp1 ≠ E →
       (calculateTradeParams cfg a E).sl ≠ E →
        0 < (calculateTradeParams cfg a E).riskReward) ∧
      (calculateTradeParams cfg a E).positionSize =
        min (cfg.accountBalance * cfg.riskPerTrade /
              (|E - (calculateTradeParams cfg a E).sl| / E))
            (cfg.accountBalance * cfg.maxPositionPercent)) := by
  refine ⟨⟨rfl, rfl, rfl⟩, ⟨rfl, rfl, rfl⟩, ?_⟩
  intro a
  have hrr : (calculateTradeParams cfg a E).riskReward =
      |(calculateTradeParams cfg a E).tp1 - E| /
        |E - (calculateTradeParams cfg a E).sl| := by
    cases a <;> rfl
  refine ⟨hrr, ?_, ?_⟩
  · intro h1 h2
    rw [hrr]
    exact div_pos (abs_pos.mpr (sub_ne_zero.mpr h1))
      (abs_pos.mpr (sub_ne_zero.mpr (Ne.symm h2)))
  · cases a <;> rfl

/-- Witness for C5 at the default configuration and entry 100: the
stop loss is 100×(1−0.012) and the risk-reward ratio is positive. -/
theorem calculateTradeParams_spec_witness :
    (calculateTradeParams defaultConfig .BUY 100).sl =
      100 * (1 - defaultConfig.slPercent) ∧
    0 < (calculateTradeParams defaultConfig .BUY 100).riskReward :=
  ⟨(calculateTradeParams_spec defaultConfig 100).1.2.2,
   ((calculateTradeParams_spec defaultConfig 100).2.2 .BUY).2.1
     (by norm_num [calculateTradeParams, defaultConfig])
     (by norm_num [calculateTradeParams, defaultConfig])⟩

/-- Claim C6: for nonempty high/low lists the computed price position
always lies in [0, 100]; it is the clamped interpolation when
resistance > support and 50 (after a vacuous clamp) otherwise. -/
theorem calculateSupportResistance_bounds (highs lows : List ℚ) (price : ℚ)
    (hh : highs ≠ []) (hl : lows ≠ []) :
    ∃ sr, calculateSupportResistance highs lows price = some sr ∧
      0 ≤ sr.pricePosition ∧ sr.pricePosition ≤ 100 ∧
      (sr.support < sr.resistance →
        sr.pricePosition =
          max 0 (min 100
            ((price - sr.support) / (sr.resistance - sr.support) * 100))) ∧
      (sr.resistance ≤ sr.support → sr.pricePosition = 50) := by
  have hh' : highs.drop (highs.length - 20) ≠ [] := by
    intro hcon
    have hle := List.drop_eq_nil_iff.mp hcon
    have : highs.length ≠ 0 := fun h0 => hh (List.length_eq_zero.mp h0)
    omega
  have hl' : lows.drop (lows.length - 20) ≠ [] := by
    intro hcon
    have hle := List.drop_eq_nil_iff.mp hcon
    have : lows.length ≠ 0 := fun h0 => hl (List.length_eq_zero.mp h0)
    omega
  cases hmax : (highs.drop (highs.length - 20)).max? with
  | none => exact absurd (List.max?_eq_none_iff.mp hmax) hh'
  | some resistance =>
  cases hmin : (lows.drop (lows.length - 20)).min? with
  | none => exact absurd (List.min?_eq_none_iff.mp hmin) hl'
  | some support =>
  have heq : calculateSupportResistance highs lows price =
      some ⟨support, resistance,
        max 0 (min 100 (if support < resistance then
          (price - support) / (resistance - support) * 100 else 50))⟩ := by
    unfold calculateSupportResistance
    simp only [hmax, hmin]
  refine ⟨⟨support, resistance,
    max 0 (min 100 (if support < resistance then
      (price - support) / (resistance - support) * 100 else 50))⟩,
    heq, ?_, ?_, ?_, ?_⟩
  · exact le_max_left 0 _
  · exact max_le (by norm_num) (min_le_left 100 _)
  · intro hlt
    show max 0 (min 100 (if support < resistance then
        (price - support) / (resistance - support) * 100 else 50)) =
      max 0 (min 100 ((price - support) / (resistance - support) * 100))
    rw [if_pos (show support < resistance from hlt)]
  · intro hle
    show max 0 (min 100 (if support < resistance then
        (price - support) / (resistance - support) * 100 else 50)) = 50
    rw [if_neg (not_lt.mpr (show resistance ≤ support from hle))]
    norm_num

/-- Witness for C6 at concrete lists: highs [10, 12], lows [9, 8],
price 11. -/
theorem calculateSupportResistance_bounds_witness :
    ∃ sr, calculateSupportResistance [10, 12] [9, 8] 11 = some sr ∧
      0 ≤ sr.pricePosition ∧ sr.pricePosition ≤ 100 ∧
      (sr.support < sr.resistance →
        sr.pricePosition =
          max 0 (min 100
            ((11 - sr.support) / (sr.resistance - sr.support) * 100))) ∧
      (sr.resistance ≤ sr.support → sr.pricePosition = 50) :=
  calculateSupportResistance_bounds [10, 12] [9, 8] 11
    (List.cons_ne_nil _ _) (List.cons_ne_nil _ _)

/-- Resolving a win at level 2 yields a `hit_tp2` record. -/
theorem completeTrade_win_tp2 (cfg : Config) (s : State) (current now : ℚ)
    (t : Trade) (ht : s.activeTrade = some t) :
    ∃ r, (completeTrade cfg s .win 2 current now).2 = some r ∧
      r.status = .hit_tp2 ∧ r.result = some .win := by
  unfold completeTrade
  rw [ht]
  exact ⟨_, rfl, rfl, rfl⟩

/-- Resolving a win at level 1 yields a `hit_tp1` record. -/
theorem completeTrade_win_tp1 (cfg : Config) (s : State) (current now : ℚ)
    (t : Trade) (ht : s.activeTrade = some t) :
    ∃ r, (completeTrade cfg s .win 1 current now).2 = some r ∧
      r.status = .hit_tp1 ∧ r.result = some .win := by
  unfold completeTrade
  rw [ht]
  exact ⟨_, rfl, rfl, rfl⟩

/-- Resolving a loss yields a `hit_sl` record. -/
theorem completeTrade_hit_sl (cfg : Config) (s : State) (current now : ℚ)
    (t : Trade) (ht : s.activeTrade = some t) :
    ∃ r, (completeTrade cfg s .loss 0 current now).2 = some r ∧
      r.status = .hit_sl ∧ r.result = some .loss := by
  unfold completeTrade
  rw [ht]
  exact ⟨_, rfl, rfl, rfl⟩

/-- Claim C1: with an active trade and a nonzero price, a BUY trade
resolves as win at tp2 when price ≥ tp2, else as win at tp1 when
price ≥ tp1, else as loss when price ≤ sl, and the SELL case is
mirrored; tp2 is checked before tp1. -/
theorem checkTradeConditions_resolution_order (cfg : Config) (s : State)
    (now : ℚ) (t : Trade) (ht : s.activeTrade = some t)
    (hp : s.currentPrice ≠ 0) :
    (t.action = .BUY →
      (s.currentPrice ≥ t.tp2 →
        ∃ r, (checkTradeConditions cfg s now).2 = some r ∧
          r.status = .hit_tp2 ∧ r.result = some .win) ∧
      (s.currentPrice < t.tp2 → s.currentPrice ≥ t.tp1 →
        ∃ r, (checkTradeConditions cfg s now).2 = some r ∧
          r.status = .hit_tp1 ∧ r.result = some .win) ∧
      (s.currentPrice < t.tp2 → s.currentPrice < t.tp1 →
       s.currentPrice ≤ t.sl →
        ∃ r, (checkTradeConditions cfg s now).2 = some r ∧
          r.status = .hit_sl ∧ r.result = some .loss)) ∧
    (t.action = .SELL →
      (s.currentPrice ≤ t.tp2 →
        ∃ r, (checkTradeConditions cfg s now).2 = some r ∧
          r.status = .hit_tp2 ∧ r.result = some .win) ∧
      (t.tp2 < s.currentPrice → s.currentPrice ≤ t.tp1 →
        ∃ r, (checkTradeConditions cfg s now).2 = some r ∧
          r.status = .hit_tp1 ∧ r.result = some .win) ∧
      (t.tp2 < s.currentPrice → t.tp1 < s.currentPrice →
       s.currentPrice ≥ t.sl →
        ∃ r, (checkTradeConditions cfg s now).2 = some r ∧
          r.status = .hit_sl ∧ r.result = some .loss)) := by
  have hbuy : t.action = .BUY →
      checkTradeConditions cfg s now =
        (if s.currentPrice ≥ t.tp2 then
          completeTrade cfg s .win 2 s.currentPrice now
        else if s.currentPrice ≥ t.tp1 then
          completeTrade cfg s .win 1 s.currentPrice now
        else if s.currentPrice ≤ t.sl then
          completeTrade cfg s .loss 0 s.currentPrice now
        else (s, none)) := by
    intro ha
    unfold checkTradeConditions
    rw [ht]
    simp only [if_neg hp, ha]
  have hsell : t.action = .SELL →
      checkTradeConditions cfg s now =
        (if s.currentPrice ≤ t.tp2 then
          completeTrade cfg s .win 2 s.currentPrice now
        else if s.currentPrice ≤ t.tp1 then
          completeTrade cfg s .win 1 s.currentPrice now
        else if s.currentPrice ≥ t.sl then
          completeTrade cfg s .loss 0 s.currentPrice now
        else (s, none)) := by
    intro ha
    unfold checkTradeConditions
    rw [ht]
    simp only [if_neg hp, ha]
  constructor
  · intro ha
    refine ⟨?_, ?_, ?_⟩
    · intro h2
      rw [hbuy ha, if_pos h2]
      exact completeTrade_win_tp2 cfg s s.currentPrice now t ht
    · intro h2 h1
      rw [hbuy ha, if_neg (not_le.mpr h2), if_pos h1]
      exact completeTrade_win_tp1 cfg s s.currentPrice now t ht
    · intro h2 h1 hsl
      rw [hbuy ha, if_neg (not_le.mpr h2), if_neg (not_le.mpr h1),
        if_pos hsl]
      exact completeTrade_hit_sl cfg s s.currentPrice now t ht
  · intro ha
    refine ⟨?_, ?_, ?_⟩
    · intro h2
      rw [hsell ha, if_pos h2]
      exact completeTrade_win_tp2 cfg s s.currentPrice now t ht
    · intro h2 h1
      rw [hsell ha, if_neg (not_le.mpr h2), if_pos h1]
      exact completeTrade_win_tp1 cfg s s.currentPrice now t ht
    · intro h2 h1 hsl
      rw [hsell ha, if_neg (not_le.mpr h2), if_neg (not_le.mpr h1),
        if_pos hsl]
      exact completeTrade_hit_sl cfg s s.currentPrice now t ht

/-- Witness for C1: the spec's tie-break scenario — BUY with entry 100,
tp1 101.5, tp2 103, sl 98.8, price 103.5 — resolves as `hit_tp2`
(and `hit_tp2` is not `hit_tp1`). -/
theorem checkTradeConditions_resolution_order_witness :
    tieBreakState.currentPrice ≥ tieBreakTrade.tp2 ∧
    (∃ r, (checkTradeConditions defaultConfig tieBreakState 0).2 = some r ∧
      r.status = .hit_tp2 ∧ r.result = some .win) ∧
    TradeStatus.hit_tp2 ≠ TradeStatus.hit_tp1 :=
  ⟨by norm_num [tieBreakState, tieBreakTrade],
   ((checkTradeConditions_resolution_order defaultConfig tieBreakState 0
        tieBreakTrade rfl (by norm_num [tieBreakState])).1 rfl).1
     (by norm_num [tieBreakState, tieBreakTrade]),
   fun h => TradeStatus.noConfusion h⟩

/-- Counterexample to claim C3: the tie-break trade resolved at live
price 103.5 records pnl 3/2 — computed from the tp2 level price 103 —
and exitPrice 103.5, but the claim's formula
`(exitPrice − entry) × (positionSize / entry)` yields 7/4 ≠ 3/2. -/
theorem completeTrade_pnl_counterexample :
    (checkTradeConditions defaultConfig tieBreakState 0).2 =
      some tieBreakResolved ∧
    tieBreakResolved.pnl = some (3 / 2) ∧
    tieBreakResolved.exitPrice = some (207 / 2) ∧
    tieBreakResolved.status = .hit_tp2 ∧
    (3 / 2 : ℚ) ≠
      (207 / 2 - tieBreakTrade.price) *
        (tieBreakTrade.positionSize / tieBreakTrade.price) := by
  refine ⟨?_, ?_, ?_, ?_, ?_⟩
  · simp only [checkTradeConditions, completeTrade, tieBreakState,
      tieBreakTrade, tieBreakResolved]
    norm_num
  · norm_num [tieBreakResolved, tieBreakTrade]
  · norm_num [tieBreakResolved, tieBreakTrade]
  · norm_num [tieBreakResolved, tieBreakTrade]
  · norm_num [tieBreakTrade]

/-- Claim C3 as amended: resolution computes pnl from the triggered
level price — tp1 or tp2 on a win at that level, sl on a loss — with
the sign flipped for SELL; it records status, result, pnl, the live
price as exitPrice and the resolution time as completedAt, updates the
statistics with the computed pnl, clears the active-trade slot and
starts the cooldown window. -/
theorem completeTrade_effects (cfg : Config) (s : State)
    (result : TradeOutcome) (tpLevel : ℕ) (current now : ℚ) (t : Trade)
    (ht : s.activeTrade = some t) :
    completeTrade cfg s result tpLevel current now =
      (let levelPrice :=
        match result with
        | .win => if tpLevel = 1 then t.tp1 else t.tp2
        | .loss => t.sl
       let pnl :=
        match t.action with
        | .BUY => (levelPrice - t.price) * (t.positionSize / t.price)
        | .SELL => (t.price - levelPrice) * (t.positionSize / t.price)
       ({ s with
            stats := updateStats s.stats result pnl
            activeTrade := none
            cooldownEnd := some (now + cfg.cooldownSeconds * 1000) },
        some { t with
            status :=
              match result with
              | .win => if tpLevel = 1 then .hit_tp1 else .hit_tp2
              | .loss => .hit_sl
            result := some result
            pnl := some pnl
            exitPrice := some current
            completedAt := some now })) := by
  unfold completeTrade
  rw [ht]
  cases result with
  | win => cases hact : t.action <;> simp [hact]
  | loss => cases hact : t.action <;> simp [hact]

/-- Witness for the amended C3: resolving the tie-break trade clears
the active slot and schedules the cooldown end at now + 180×1000 ms. -/
theorem completeTrade_effects_witness :
    tieBreakState.activeTrade = some tieBreakTrade ∧
    (completeTrade defaultConfig tieBreakState .win 2 (207 / 2) 0).1.activeTrade
      = none ∧
    (completeTrade defaultConfig tieBreakState .win 2 (207 / 2) 0).1.cooldownEnd
      = some (0 + defaultConfig.cooldownSeconds * 1000) ∧
    ((completeTrade defaultConfig tieBreakState .win 2 (207 / 2) 0).2.map
      Trade.pnl) = some (some ((tieBreakTrade.tp2 - tieBreakTrade.price) *
        (tieBreakTrade.positionSize / tieBreakTrade.price))) := by
  refine ⟨rfl, ?_, ?_, ?_⟩ <;>
    rw [completeTrade_effects defaultConfig tieBreakState .win 2 (207 / 2) 0
      tieBreakTrade rfl]
  rfl

/-- Counterexample to claim C7: with RSI 20 (below the default
oversold bound 30), neutral trend, price position 50 and volatility 10
(above the high-volatility bound 5), the analyzer does emit BUY but
with confidence 0.72 = clamp(0.9 × 0.8), not the claim's
clamp(0.7 + (30 − 20)/50) = 0.9. -/
theorem analyzeMarket_confidence_counterexample :
    (analyzeMarket defaultConfig highVolOversoldInd).action = .BUY ∧
    (analyzeMarket defaultConfig highVolOversoldInd).confidence = 18 / 25 ∧
    (18 / 25 : ℚ) ≠
      max 0.3 (min 0.95
        (0.7 + (defaultConfig.rsiOversold - highVolOversoldInd.rsi) / 50)) := by
  refine ⟨?_, ?_, ?_⟩
  · norm_num [analyzeMarket, defaultConfig, highVolOversoldInd]
  · norm_num [analyzeMarket, defaultConfig, highVolOversoldInd]
  · norm_num [defaultConfig, highVolOversoldInd]

/-- Claim C7 as amended: below the oversold threshold, with bullish or
neutral trend the analyzer emits BUY with rationale `oversoldBuy` and
confidence `0.7 + (oversold − rsi)/50`, plus 0.05 when
pricePosition < 40, multiplied by 0.8 when volatility exceeds the
high-volatility threshold, then clamped to [0.3, 0.95]; with bearish
trend it emits HOLD with the wait-for-confirmation rationale.  The
oversold branch is the first of the decision chain, so it takes
precedence over all later rules. -/
theorem analyzeMarket_oversold_rule (cfg : Config) (ind : Indicators)
    (h : ind.rsi < cfg.rsiOversold) :
    ((ind.trend = .bullish ∨ ind.trend = .neutral) →
      (analyzeMarket cfg ind).action = .BUY ∧
      (analyzeMarket cfg ind).reason = .oversoldBuy ∧
      (analyzeMarket cfg ind).confidence =
        max 0.3 (min 0.95
          ((0.7 + (cfg.rsiOversold - ind.rsi) / 50 +
            (if ind.pricePosition < 40 then 0.05 else 0)) *
           (if ind.volatility > (cfg.highVolatility : ℝ) then 0.8 else 1)))) ∧
    (ind.trend = .bearish →
      (analyzeMarket cfg ind).action = .HOLD ∧
      (analyzeMarket cfg ind).reason = .oversoldWait) := by
  constructor
  · intro htr
    by_cases hpp : ind.pricePosition < 40 <;>
      by_cases hv : ind.volatility > (cfg.highVolatility : ℝ) <;>
        refine ⟨?_, ?_, ?_⟩ <;>
          simp [analyzeMarket, h, htr, hpp, hv]
  · intro htr
    refine ⟨?_, ?_⟩ <;> simp [analyzeMarket, h, htr]

/-- Witness for the amended C7 at the oversold high-volatility
snapshot. -/
theorem analyzeMarket_oversold_rule_witness :
    highVolOversoldInd.rsi < defaultConfig.rsiOversold ∧
    (analyzeMarket defaultConfig highVolOversoldInd).action = .BUY ∧
    (analyzeMarket defaultConfig highVolOversoldInd).reason = .oversoldBuy ∧
    (analyzeMarket defaultConfig highVolOversoldInd).confidence =
      max 0.3 (min 0.95
        ((0.7 + (defaultConfig.rsiOversold - highVolOversoldInd.rsi) / 50 +
          (if highVolOversoldInd.pricePosition < 40 then 0.05 else 0)) *
         (if highVolOversoldInd.volatility > (defaultConfig.highVolatility : ℝ)
          then 0.8 else 1))) :=
  ⟨by norm_num [highVolOversoldInd, defaultConfig],
   (analyzeMarket_oversold_rule defaultConfig highVolOversoldInd
       (by norm_num [highVolOversoldInd, defaultConfig])).1 (Or.inr rfl)⟩

/-- Adjacent-pair decomposition of `deltas`. -/
theorem deltas_cons_cons (a b : ℚ) (t : List ℚ) :
    deltas (a :: b :: t) = (b - a) :: deltas (b :: t) := rfl

/-- Every delta of a `≤`-chained close sequence is nonnegative. -/
theorem deltas_nonneg :
    ∀ (closes : List ℚ), closes.Chain' (· ≤ ·) → ∀ d ∈ deltas closes, 0 ≤ d
  | [], _, d, hd => by simp [deltas] at hd
  | [_], _, d, hd => by simp [deltas] at hd
  | a :: b :: t, h, d, hd => by
    rw [List.chain'_cons] at h
    rw [deltas_cons_cons] at hd
    rcases List.mem_cons.mp hd with hd | hd
    · rw [hd]
      exact sub_nonneg.mpr h.1
    · exact deltas_nonneg (b :: t) h.2 d hd

/-- The loss accumulator of the initial RSI loop stays put on
nonnegative changes. -/
theorem rsiInitStep_foldl_snd :
    ∀ (ds : List ℚ) (g l : ℚ), (∀ d ∈ ds, 0 ≤ d) →
      (ds.foldl rsiInitStep (g, l)).2 = l
  | [], _, _, _ => rfl
  | d :: ds, g, l, h => by
    have hd : 0 ≤ d := h d (List.mem_cons_self _ _)
    rw [List.foldl_cons]
    by_cases hpos : d > 0
    · rw [show rsiInitStep (g, l) d = (g + d, l) from by simp [rsiInitStep, hpos]]
      exact rsiInitStep_foldl_snd ds (g + d) l
        (fun x hx => h x (List.mem_cons_of_mem _ hx))
    · have hz : d = 0 := le_antisymm (not_lt.mp hpos) hd
      rw [show rsiInitStep (g, l) d = (g, l) from by
        simp [rsiInitStep, hpos, hz]]
      exact rsiInitStep_foldl_snd ds g l
        (fun x hx => h x (List.mem_cons_of_mem _ hx))

/-- The smoothed average loss stays zero under Wilder steps with
nonnegative changes. -/
theorem rsiWilderStep_foldl_snd :
    ∀ (ds : List ℚ) (g : ℚ), (∀ d ∈ ds, 0 ≤ d) →
      (ds.foldl rsiWilderStep (g, 0)).2 = 0
  | [], _, _ => rfl
  | d :: ds, g, h => by
    have hd : 0 ≤ d := h d (List.mem_cons_self _ _)
    rw [List.foldl_cons,
      show rsiWilderStep (g, 0) d =
        ((g * 13 + (if d > 0 then d else 0)) / 14, 0) from by
          simp [rsiWilderStep, not_lt.mpr hd]]
    exact rsiWilderStep_foldl_snd ds _
      (fun x hx => h x (List.mem_cons_of_mem _ hx))

/-- A `≤`-chained close sequence leaves the final smoothed average
loss at zero. -/
theorem rsiAverages_snd_eq_zero (closes : List ℚ)
    (h : closes.Chain' (· ≤ ·)) : (rsiAverages closes).2 = 0 := by
  have hall := deltas_nonneg closes h
  have h1 : (((deltas closes).take 13).foldl rsiInitStep (0, 0)).2 = 0 :=
    rsiInitStep_foldl_snd _ 0 0 (fun d hd => hall d (List.take_subset _ _ hd))
  show (((deltas closes).drop 13).foldl rsiWilderStep
    ((((deltas closes).take 13).foldl rsiInitStep (0, 0)).1 / 13,
     (((deltas closes).take 13).foldl rsiInitStep (0, 0)).2 / 13)).2 = 0
  rw [h1, zero_div]
  exact rsiWilderStep_foldl_snd _ _
    (fun d hd => hall d (List.drop_subset _ _ hd))

/-- Claim C4: RSI defaults to 50 below 14 closes; on at least 14
strictly rising closes the smoothed average loss is zero and RSI is
100; RSI is 100 exactly when the smoothed average loss vanishes, and
otherwise equals `100 − 100/(1 + avgGain/avgLoss)`. -/
theorem calculateRSI_spec :
    (∀ closes : List ℚ, closes.length < 14 → calculateRSI closes = 50) ∧
    (∀ closes : List ℚ, 14 ≤ closes.length → closes.Chain' (· < ·) →
      calculateRSI closes = 100) ∧
    (∀ closes : List ℚ, 14 ≤ closes.length → (rsiAverages closes).2 = 0 →
      calculateRSI closes = 100) ∧
    (∀ closes : List ℚ, 14 ≤ closes.length → (rsiAverages closes).2 ≠ 0 →
      calculateRSI closes =
        100 - 100 / (1 + (rsiAverages closes).1 / (rsiAverages closes).2)) := by
  have hz : ∀ closes : List ℚ, 14 ≤ closes.length →
      (rsiAverages closes).2 = 0 → calculateRSI closes = 100 := by
    intro closes h h0
    unfold calculateRSI
    rw [if_neg (not_lt.mpr h)]
    show (if (rsiAverages closes).2 = 0 then (100 : ℚ)
      else 100 - 100 / (1 + (rsiAverages closes).1 / (rsiAverages closes).2))
      = 100
    rw [if_pos h0]
  refine ⟨?_, ?_, hz, ?_⟩
  · intro closes h
    unfold calculateRSI
    rw [if_pos h]
  · intro closes h hch
    exact hz closes h
      (rsiAverages_snd_eq_zero closes (hch.imp fun _ _ hab => le_of_lt hab))
  · intro closes h hne
    unfold calculateRSI
    rw [if_neg (not_lt.mpr h)]
    show (if (rsiAverages closes).2 = 0 then (100 : ℚ)
      else 100 - 100 / (1 + (rsiAverages closes).1 / (rsiAverages closes).2))
      = 100 - 100 / (1 + (rsiAverages closes).1 / (rsiAverages closes).2)
    rw [if_neg hne]

/-- Witness for C4: a single close gives the neutral 50, and fourteen
strictly rising closes give RSI 100. -/
theorem calculateRSI_spec_witness :
    calculateRSI [1] = 50 ∧ calculateRSI risingCloses = 100 :=
  ⟨calculateRSI_spec.1 [1] (by norm_num),
   calculateRSI_spec.2.1 risingCloses (by norm_num [risingCloses])
     (by norm_num [risingCloses, List.chain'_cons, List.chain'_singleton])⟩

end Btcai
